import Mathlib

/-!
Verification development for the LibriSync repository.

Part 1 embeds the Android bridge module
(modules/expo-rust-bridge/android/.../ExpoRustBridgeModule.kt): the JSON
response parser `parseJsonResponse` / `parseJsonValue` and the sixteen
exported bridge functions, each of which invokes a native (JNI) function
and either wraps the call in a try/catch block building an error map, or
calls `parseJsonResponse` directly with no catch block.
-/

/-- JSON values as handled by org.json (JSONObject / JSONArray) on the
Kotlin side. Numbers are modelled as integers, which covers every numeric
field the bridge exchanges. -/
inductive Json where
  | null : Json
  | bool (b : Bool) : Json
  | num (n : Int) : Json
  | str (s : String) : Json
  | arr (xs : List Json) : Json
  | obj (kvs : List (String × Json)) : Json

/-- Kotlin-side values produced by `parseJsonValue`: JSONObject becomes a
Map, JSONArray becomes a List, JSONObject.NULL becomes null, everything
else stays a primitive. -/
inductive KVal where
  | knull : KVal
  | kbool (b : Bool) : KVal
  | knum (n : Int) : KVal
  | kstr (s : String) : KVal
  | klist (xs : List KVal) : KVal
  | kmap (kvs : List (String × KVal)) : KVal

/-- Embedding of `parseJsonValue` (ExpoRustBridgeModule.kt lines 409 to 426):
recursively converts a JSON value into the Kotlin representation. -/
def parseJsonValue : Json → KVal
  | .null => .knull
  | .bool b => .kbool b
  | .num n => .knum n
  | .str s => .kstr s
  | .arr xs => .klist (xs.attach.map (fun x => parseJsonValue x.1))
  | .obj kvs => .kmap (kvs.attach.map (fun kv => (kv.1.1, parseJsonValue kv.1.2)))
decreasing_by
  · have := x.2
    simp only [Json.arr.sizeOf_spec]
    calc sizeOf x.1 < sizeOf xs := List.sizeOf_lt_of_mem this
    _ < 1 + sizeOf xs := by omega
  · have h1 := kv.2
    have h2 : sizeOf kv.1.2 < sizeOf kv.1 := by
      rcases kv.1 with ⟨a, b⟩
      simp only [Prod.mk.sizeOf_spec]
      omega
    have h3 : sizeOf kv.1 < sizeOf kvs := List.sizeOf_lt_of_mem h1
    simp only [Json.obj.sizeOf_spec]
    omega

/-- Result of the JSONObject constructor on the string returned by the
native layer: either the string is not a JSON object (the constructor
throws) or it parses into a field list. -/
inductive NativeReturn where
  | unparseable : NativeReturn
  | parsed (kvs : List (String × Json)) : NativeReturn

/-- Field lookup on a parsed JSONObject (first binding wins, as JSONObject
keys are unique). -/
def jsonLookup (name : String) (kvs : List (String × Json)) : Option Json :=
  kvs.lookup name

/-- JSONObject.getBoolean: returns the boolean mapped by the name, also
coercing the strings true and false; any other shape (or a missing field)
throws, which the embedding reports as none. -/
def getBooleanField (kvs : List (String × Json)) (name : String) : Option Bool :=
  match jsonLookup name kvs with
  | some (.bool b) => some b
  | some (.str "true") => some true
  | some (.str "false") => some false
  | _ => none

/-- JSONObject.getString: returns the string mapped by the name, coercing
booleans and numbers to their string forms; null, objects, arrays and
missing fields throw, reported as none. -/
def getStringField (kvs : List (String × Json)) (name : String) : Option String :=
  match jsonLookup name kvs with
  | some (.str s) => some s
  | some (.bool true) => some "true"
  | some (.bool false) => some "false"
  | some (.num n) => some (toString n)
  | _ => none

/-- The map a bridge handler returns to JavaScript: either a success map
with a data payload, or a failure map with an error message. Both carry
the boolean success flag by construction. -/
inductive BridgeResult where
  | success (data : KVal) : BridgeResult
  | failure (error : String) : BridgeResult

/-- Embedding of `parseJsonResponse` (ExpoRustBridgeModule.kt lines 379 to
401). Any exception inside the try block, including a malformed JSON
string, a missing or mistyped success flag, a missing data field or a
missing error field, is caught and converted to the failure map; the
exception message appended in the Kotlin string template is elided. -/
def parseJsonResponse (r : NativeReturn) : BridgeResult :=
  match r with
  | .unparseable => .failure "Failed to parse JSON response"
  | .parsed kvs =>
    match getBooleanField kvs "success" with
    | none => .failure "Failed to parse JSON response"
    | some true =>
      match jsonLookup "data" kvs with
      | some d => .success (parseJsonValue d)
      | none => .failure "Failed to parse JSON response"
    | some false =>
      match getStringField kvs "error" with
      | some e => .failure e
      | none => .failure "Failed to parse JSON response"

/-- Outcome of invoking a native JNI function from Kotlin: it returns a
string (which the JSONObject constructor then parses, or fails to), or it
throws a host Exception into the Kotlin frame. -/
inductive NativeOutcome where
  | returns (r : NativeReturn) : NativeOutcome
  | throws (msg : String) : NativeOutcome

/-- What a Kotlin bridge handler produces for its caller: a result map, or
a propagated (uncaught) host exception. -/
inductive HostOutcome where
  | value (m : BridgeResult) : HostOutcome
  | thrown (msg : String) : HostOutcome

/-- Shape of a bridge handler body: `plain` calls
parseJsonResponse(native(...)) with no catch block; `caught lbl` wraps the
native call and the parse in try/catch and builds the error map with the
given message label on a caught exception. -/
inductive HandlerKind where
  | plain : HandlerKind
  | caught (lbl : String) : HandlerKind

/-- Run one bridge handler on the outcome of its native call, following
the two body shapes that appear in ExpoRustBridgeModule.kt. -/
def runHandler : HandlerKind → NativeOutcome → HostOutcome
  | .plain, .returns r => .value (parseJsonResponse r)
  | .plain, .throws msg => .thrown msg
  | .caught _, .returns r => .value (parseJsonResponse r)
  | .caught lbl, .throws msg => .value (.failure (lbl ++ ": " ++ msg))

/-- The sixteen native-calling functions of the bridge module with the
body shape each one has in the source. The synchronous Function handlers
and getCustomerInformation have no try/catch; the seven AsyncFunction
handlers listed as caught wrap the call with the message label taken from
the source. -/
def bridgeFunctions : List (String × HandlerKind) :=
  [("generateOAuthUrl", .plain),
   ("parseOAuthCallback", .plain),
   ("exchangeAuthCode", .caught "Exchange auth code error"),
   ("refreshAccessToken", .caught "Refresh token error"),
   ("getActivationBytes", .caught "Get activation bytes error"),
   ("initDatabase", .plain),
   ("syncLibrary", .caught "Sync library error"),
   ("syncLibraryPage", .caught "Sync library page error"),
   ("getBooks", .plain),
   ("searchBooks", .plain),
   ("downloadBook", .caught "Download book error"),
   ("decryptAAX", .caught "Decrypt AAX error"),
   ("validateActivationBytes", .plain),
   ("getSupportedLocales", .plain),
   ("getCustomerInformation", .plain),
   ("logFromRust", .plain)]

/-- Dispatch a call through the bridge module by function name. -/
def runBridge (name : String) (o : NativeOutcome) : Option HostOutcome :=
  (bridgeFunctions.lookup name).map (fun k => runHandler k o)

/-- A handler outcome is a result map (rather than a propagated host
exception). -/
def isResultMap : HostOutcome → Bool
  | .value _ => true
  | .thrown _ => false

/-- Claim C1, counterexample: the getCustomerInformation handler is an
AsyncFunction whose body (ExpoRustBridgeModule.kt lines 307 to 314) has no
try/catch around the native call, so a host exception thrown by the
native layer propagates to the caller instead of being converted into the
error-shaped result map. The same holds for every synchronous Function
handler of the module. -/
theorem bridge_propagates_host_exception :
    (runBridge "getCustomerInformation"
      (NativeOutcome.throws "UnsatisfiedLinkError")).map isResultMap = some false := by
  rfl

/-- Claim C1 (amended): every bridge handler converts malformed JSON
returned by the core into the error-shaped result map via
parseJsonResponse, and the handlers that wrap their native call in a
try/catch block (exchangeAuthCode, refreshAccessToken,
getActivationBytes, syncLibrary, syncLibraryPage, downloadBook,
decryptAAX) also convert a thrown native-layer exception into that shape;
only those wrapped handlers never propagate a host exception. -/
theorem bridge_error_shape_amended (name : String) (k : HandlerKind)
    (o : NativeOutcome) (hmem : (name, k) ∈ bridgeFunctions)
    (hsafe : (∃ r, o = NativeOutcome.returns r) ∨
      ∃ lbl, k = HandlerKind.caught lbl) :
    isResultMap (runHandler k o) = true := by
  rcases hsafe with ⟨r, rfl⟩ | ⟨lbl, rfl⟩
  · cases k <;> simp [runHandler, isResultMap]
  · cases o <;> simp [runHandler, isResultMap]

/-- Claim C1, witness for the amended theorem: the getBooks handler turns
an unparseable native string into a result map. -/
theorem bridge_error_shape_amended_witness :
    isResultMap (runHandler HandlerKind.plain
      (NativeOutcome.returns NativeReturn.unparseable)) = true :=
  bridge_error_shape_amended "getBooks" HandlerKind.plain
    (NativeOutcome.returns NativeReturn.unparseable)
    (by simp [bridgeFunctions])
    (Or.inl ⟨NativeReturn.unparseable, rfl⟩)

/-!
Part 2: the codec-converter handoff and the decrypt entry points.

The Kotlin handler decryptAAX (ExpoRustBridgeModule.kt lines 256 to 271)
takes the encrypted input path, the output path and a single
activationBytes string and forwards them as the JSON fields input_path,
output_path and activation_bytes; the iOS FFI declaration rust_decrypt_aax
(native/rust-core/ios_bridge.h lines 170 to 183) has the same three
parameters and documents activation_bytes as an 8-character hex string.
-/

/-- The two key-material shapes of the license layer: a short fixed-length
activation key (TypeA, 4 bytes) or a key plus IV pair (TypeB, 16 plus 16
bytes). Bytes are naturals below 256. -/
inductive KeyMaterial where
  | typeA (key : List Nat) : KeyMaterial
  | typeB (key iv : List Nat) : KeyMaterial

/-- Lower-case hex digit for a value below 16. -/
def hexDigitChar (n : Nat) : Char :=
  if n < 10 then Char.ofNat (48 + n) else Char.ofNat (87 + n)

/-- Hex encoding of one byte, two digits. -/
def byteToHex (b : Nat) : List Char :=
  [hexDigitChar (b / 16), hexDigitChar (b % 16)]

/-- Hex encoding of a byte sequence, the documented string format of the
handoff. -/
def hexEncode (bs : List Nat) : String :=
  String.mk (bs.map byteToHex).flatten

/-- Hex-encoded string form of key material as supplied to the
converter: the activation key for TypeA, key followed by IV for TypeB. -/
def keyMaterialHex : KeyMaterial → String
  | .typeA k => hexEncode k
  | .typeB k iv => hexEncode k ++ hexEncode iv

/-- Key material has the documented byte lengths for its shape. -/
def wellFormedKeyMaterial : KeyMaterial → Bool
  | .typeA k => k.length == 4 && k.all (fun b => b < 256)
  | .typeB k iv => k.length == 16 && iv.length == 16

/-- The key material is the TypeA shape. -/
def isTypeAShape : KeyMaterial → Bool
  | .typeA _ => true
  | .typeB _ _ => false

/-- A hex digit character, as checked by the activation-bytes format
validation. -/
def isHexDigitChar (c : Char) : Bool :=
  (Char.ofNat 48 ≤ c && c ≤ Char.ofNat 57) ||
  (Char.ofNat 97 ≤ c && c ≤ Char.ofNat 102) ||
  (Char.ofNat 65 ≤ c && c ≤ Char.ofNat 70)

/-- Modelled from the spec: the Rust implementations of rust_decrypt_aax
and rust_validate_activation_bytes are not in this tree; ios_bridge.h and
the Kotlin module document the accepted activation_bytes value as an
8-character hex string (4 bytes), which is the format this predicate
checks. -/
def validActivationBytes (s : String) : Bool :=
  s.length == 8 && s.data.all isHexDigitChar

/-- Embedding of the parameter object built by the Kotlin decryptAAX
handler: exactly the three fields it puts into the JSON request. -/
def decryptAAXParams (inputPath outputPath activationBytes : String) :
    List (String × Json) :=
  [("input_path", .str inputPath),
   ("output_path", .str outputPath),
   ("activation_bytes", .str activationBytes)]

/-- Length of the hex encoding at the character-list level: two digits per
byte. -/
theorem hexChars_length (bs : List Nat) :
    ((bs.map byteToHex).flatten).length = 2 * bs.length := by
  induction bs with
  | nil => rfl
  | cons b tl ih =>
    simp only [List.map_cons, List.flatten_cons, List.length_append, ih,
      byteToHex, List.length_cons, List.length_nil]
    omega

/-- Length of the hex encoding of a byte sequence. -/
theorem hexEncode_length (bs : List Nat) :
    (hexEncode bs).length = 2 * bs.length :=
  hexChars_length bs

/-- Hex digits produced for values below 16 pass the hex-digit check. -/
theorem isHexDigitChar_hexDigitChar (n : Nat) (h : n < 16) :
    isHexDigitChar (hexDigitChar n) = true := by
  interval_cases n <;> rfl

/-- Both digits of a byte below 256 pass the hex-digit check. -/
theorem byteToHex_all_hex (b : Nat) (h : b < 256) :
    (byteToHex b).all isHexDigitChar = true := by
  have h1 : b / 16 < 16 := Nat.div_lt_of_lt_mul (by omega)
  have h2 : b % 16 < 16 := Nat.mod_lt _ (by omega)
  simp [byteToHex, isHexDigitChar_hexDigitChar _ h1,
    isHexDigitChar_hexDigitChar _ h2]

/-- Every character of the hex encoding of a byte sequence is a hex
digit. -/
theorem hexChars_all_hex (bs : List Nat) (h : ∀ b ∈ bs, b < 256) :
    ((bs.map byteToHex).flatten).all isHexDigitChar = true := by
  induction bs with
  | nil => rfl
  | cons b tl ih =>
    simp only [List.map_cons, List.flatten_cons, List.all_append]
    rw [byteToHex_all_hex b (h b (List.mem_cons_self b tl)),
      ih (fun x hx => h x (List.mem_cons_of_mem b hx))]
    rfl

/-- String-level version of hexChars_all_hex. -/
theorem hexEncode_all_hex (bs : List Nat) (h : ∀ b ∈ bs, b < 256) :
    (hexEncode bs).data.all isHexDigitChar = true :=
  hexChars_all_hex bs h

/-- Claim C2, counterexample: the TypeB key material actually observed by
the project (the 16-byte key and 16-byte IV recorded for book B07T2F8VJM)
is rejected by the activation_bytes format of the decrypt entry points:
its hex encoding is 64 characters, not 8. -/
theorem decrypt_rejects_typeB_counterexample :
    validActivationBytes (keyMaterialHex (KeyMaterial.typeB
      [126, 208, 91, 213, 242, 231, 186, 189, 32, 217, 132, 222, 21, 134, 33, 129]
      [217, 87, 192, 242, 117, 137, 87, 89, 224, 218, 90, 234, 122, 236, 170, 4]))
      = false := by
  rfl

/-- Claim C2 (amended): the decryptAAX handoff supplies the encrypted
input path, the output path and the key material as the single
hex-encoded activation_bytes field, and the entry points accept exactly
the TypeA shape: for well-formed key material the 8-hex-character
activation_bytes format holds if and only if the material is a single
short activation key, so a TypeB key plus IV pair is not accepted. -/
theorem decrypt_entry_point_key_shape (km : KeyMaterial)
    (inputPath outputPath : String)
    (hwf : wellFormedKeyMaterial km = true) :
    jsonLookup "activation_bytes"
      (decryptAAXParams inputPath outputPath (keyMaterialHex km)) =
      some (Json.str (keyMaterialHex km)) ∧
    validActivationBytes (keyMaterialHex km) = isTypeAShape km := by
  cases km with
  | typeA k =>
    simp only [wellFormedKeyMaterial, Bool.and_eq_true, beq_iff_eq,
      List.all_eq_true, decide_eq_true_eq] at hwf
    refine ⟨rfl, ?_⟩
    simp [validActivationBytes, keyMaterialHex, isTypeAShape,
      hexEncode_length, hwf.1, hexEncode_all_hex k hwf.2]
  | typeB k iv =>
    simp only [wellFormedKeyMaterial, Bool.and_eq_true, beq_iff_eq] at hwf
    refine ⟨rfl, ?_⟩
    simp only [validActivationBytes, keyMaterialHex, isTypeAShape]
    rw [show (hexEncode k ++ hexEncode iv).length =
      (hexEncode k).length + (hexEncode iv).length from String.length_append _ _,
      hexEncode_length, hexEncode_length, hwf.1, hwf.2]
    rfl

/-- Claim C2, witness for the amended theorem: the 4-byte activation key
1CEB00DA is accepted, matching its TypeA classification. -/
theorem decrypt_entry_point_key_shape_witness :
    validActivationBytes (keyMaterialHex (KeyMaterial.typeA [28, 235, 0, 218])) =
      isTypeAShape (KeyMaterial.typeA [28, 235, 0, 218]) :=
  (decrypt_entry_point_key_shape (KeyMaterial.typeA [28, 235, 0, 218])
    "book.aax" "book.m4b" (by rfl)).2

/-!
Part 3: the library screen (src/screens/LibraryScreen.tsx).

handleDownload is modelled as a pure function of its environment (the
stored account, the clock, the refresh outcome, the stored download
directory and the outcome of downloadAndDecryptBook). The early returns
at the missing-account, failed-refresh and missing-directory checks all
leave the try block, so the finally block runs on every path and removes
the book identifier from the downloadingAsins set.
-/

/-- Access-token record inside the stored account, with the expiry instant
in epoch milliseconds. -/
structure TokenInfo where
  token : String
  expires_at : Int
deriving Repr, DecidableEq

/-- Identity part of the stored account. The optional chain
account.identity?.access_token in the source motivates the two Option
layers. -/
structure Identity where
  access_token : Option TokenInfo
deriving Repr, DecidableEq

/-- Stored audible_account value after JSON.parse. -/
structure Account where
  identity : Option Identity
deriving Repr, DecidableEq

/-- Book row as rendered by the library screen: the identifier, the title
and the optional local file path that marks a finished download. -/
structure Book where
  audible_product_id : String
  title : String
  file_path : Option String
deriving Repr, DecidableEq

/-- Fresh tokens returned by refreshToken. -/
structure RefreshedTokens where
  access_token : String
  refresh_token : String
  expires_in : Int
deriving Repr, DecidableEq

/-- Result of a successful downloadAndDecryptBook call. -/
structure DownloadOutputs where
  outputPath : String
  duration : Int
deriving Repr, DecidableEq

/-- Environment a single handleDownload invocation runs against. The
refreshResult field is the outcome of refreshToken when it is called,
and downloadResult the outcome of downloadAndDecryptBook when it is
called. -/
structure DownloadEnv where
  accountData : Option Account
  nowMillis : Int
  refreshResult : Option RefreshedTokens
  downloadDir : Option String
  downloadResult : Except String DownloadOutputs

/-- The alert handleDownload raises on its exit path. -/
inductive DownloadAlert where
  | loginRequired : DownloadAlert
  | refreshFailed : DownloadAlert
  | dirNotSet : DownloadAlert
  | complete (outputPath : String) : DownloadAlert
  | failed (msg : String) : DownloadAlert
deriving Repr, DecidableEq

/-- Observable outcome of one settled handleDownload invocation. -/
structure HandleDownloadResult where
  invokedDownload : Bool
  alert : DownloadAlert
  downloadingAfter : Finset String

/-- Embedding of getStatus (LibraryScreen.tsx lines 104 to 112); the
theme color is dropped, the status text kept. -/
def getStatus (downloadingAsins : Finset String) (book : Book) : String :=
  if book.audible_product_id ∈ downloadingAsins then "⬇ Downloading..."
  else if book.file_path.isSome then "✓ Downloaded"
  else "Available"

/-- Embedding of the download affordance in renderItem (LibraryScreen.tsx
lines 244 to 256): the download button, the only caller of
handleDownload, is rendered exactly when the book is neither downloaded
nor currently downloading. -/
def renderShowsDownloadButton (downloadingAsins : Finset String)
    (book : Book) : Bool :=
  let isDownloading := book.audible_product_id ∈ downloadingAsins
  let isDownloaded := book.file_path.isSome
  !isDownloaded && !isDownloading

/-- Embedding of handleDownload (LibraryScreen.tsx lines 114 to 207) as a
function from the environment, the downloadingAsins set at entry and the
pressed book to the settled outcome. The token-refresh branch runs when
the stored access token expires within five minutes of the clock; the
finally block removes the identifier from the set on every path. -/
def handleDownload (env : DownloadEnv) (downloading : Finset String)
    (book : Book) : HandleDownloadResult :=
  let asin := book.audible_product_id
  match env.accountData with
  | none => ⟨false, .loginRequired, downloading.erase asin⟩
  | some account =>
    let refreshOk : Bool :=
      match account.identity with
      | none => true
      | some ident =>
        match ident.access_token with
        | none => true
        | some tok =>
          if tok.expires_at - env.nowMillis < 5 * 60 * 1000 then
            env.refreshResult.isSome
          else true
    if refreshOk then
      match env.downloadDir with
      | none => ⟨false, .dirNotSet, downloading.erase asin⟩
      | some _ =>
        match env.downloadResult with
        | .ok res =>
          ⟨true, .complete res.outputPath, (insert asin downloading).erase asin⟩
        | .error msg =>
          ⟨true, .failed msg, (insert asin downloading).erase asin⟩
    else ⟨false, .refreshFailed, downloading.erase asin⟩

/-- The set handleDownload leaves behind is always the entry set with the
book identifier erased: the finally block runs the removal on every exit
path, and erasing after the mid-function insert equals erasing directly. -/
theorem handleDownload_after (env : DownloadEnv) (dl : Finset String)
    (book : Book) :
    (handleDownload env dl book).downloadingAfter =
      dl.erase book.audible_product_id := by
  cases hacc : env.accountData <;>
    cases hdir : env.downloadDir <;>
    cases hres : env.downloadResult <;>
      simp [handleDownload, hacc, hdir, hres, Finset.erase_insert_eq_erase] <;>
      split <;> rfl

/-- Claim C10: after every settled handleDownload invocation, regardless
of the environment (missing account, failed refresh, missing directory,
download success or download error), the pressed book identifier is
absent from the downloadingAsins set. -/
theorem handleDownload_clears_downloading_marker (env : DownloadEnv)
    (dl : Finset String) (book : Book) :
    book.audible_product_id ∉ (handleDownload env dl book).downloadingAfter := by
  rw [handleDownload_after]
  exact Finset.not_mem_erase _ _

/-- Claim C4: with no stored audible_account entry, handleDownload exits
on the login-required alert before downloadAndDecryptBook is ever
invoked. -/
theorem handleDownload_auth_required (env : DownloadEnv) (dl : Finset String)
    (book : Book) (h : env.accountData = none) :
    (handleDownload env dl book).invokedDownload = false ∧
    (handleDownload env dl book).alert = DownloadAlert.loginRequired := by
  simp [handleDownload, h]

/-- Claim C4, witness: a concrete environment with no stored account. -/
theorem handleDownload_auth_required_witness :
    (handleDownload ⟨none, 0, none, some "/downloads", Except.error "net"⟩
      ∅ ⟨"B07T2F8VJM", "A Grown-Up Guide to Dinosaurs", none⟩).invokedDownload
      = false ∧
    (handleDownload ⟨none, 0, none, some "/downloads", Except.error "net"⟩
      ∅ ⟨"B07T2F8VJM", "A Grown-Up Guide to Dinosaurs", none⟩).alert
      = DownloadAlert.loginRequired :=
  handleDownload_auth_required _ _ _ rfl

/-- Screen state: the loaded book rows, the downloadingAsins set, the
identifiers whose downloadAndDecryptBook call is in flight, and the
handleDownload invocations that have been pressed but are still suspended
at the awaited reads before the downloadingAsins insert. -/
structure LibraryState where
  books : List Book
  downloading : Finset String
  active : List String
  pending : List (DownloadEnv × Book)

/-- Interleaved transitions of the library screen. A press is only
possible through the download button renderItem offers against the state
current at press time, and it merely spawns an asynchronous handleDownload
invocation: the source awaits the account read, the optional token refresh
and the directory read before touching downloadingAsins, and performs no
duplicate check of its own, so the invocation stays pending until a resume
step runs it against the state current at resume time. Pending invocations
resume in any order; book rows are left unchanged, which only admits more
presses than the source (completion also fills file_path there). -/
inductive LibraryStep : LibraryState → LibraryState → Prop where
  | press (s : LibraryState) (env : DownloadEnv) (book : Book)
      (hbook : book ∈ s.books)
      (hbtn : renderShowsDownloadButton s.downloading book = true) :
      LibraryStep s ⟨s.books, s.downloading, s.active, (env, book) :: s.pending⟩
  | resumeStart (s : LibraryState) (env : DownloadEnv) (book : Book)
      (l1 l2 : List (DownloadEnv × Book))
      (hp : s.pending = l1 ++ (env, book) :: l2)
      (hstart : (handleDownload env s.downloading book).invokedDownload = true) :
      LibraryStep s ⟨s.books, insert book.audible_product_id s.downloading,
        book.audible_product_id :: s.active, l1 ++ l2⟩
  | resumeNoStart (s : LibraryState) (env : DownloadEnv) (book : Book)
      (l1 l2 : List (DownloadEnv × Book))
      (hp : s.pending = l1 ++ (env, book) :: l2)
      (hstart : (handleDownload env s.downloading book).invokedDownload = false) :
      LibraryStep s ⟨s.books,
        (handleDownload env s.downloading book).downloadingAfter, s.active, l1 ++ l2⟩
  | settle (s : LibraryState) (asin : String) (hactive : asin ∈ s.active) :
      LibraryStep s ⟨s.books, s.downloading.erase asin, s.active.erase asin,
        s.pending⟩

/-- States reachable from a freshly loaded screen: empty downloadingAsins,
no in-flight transfer, no pending invocation. -/
inductive LibraryReachable : LibraryState → Prop where
  | init (books : List Book) : LibraryReachable ⟨books, ∅, [], []⟩
  | step {s t : LibraryState} (hr : LibraryReachable s)
      (hs : LibraryStep s t) : LibraryReachable t

/-- The guard of a press says the pressed book is not marked
downloading. -/
theorem press_guard_not_downloading {dl : Finset String} {book : Book}
    (hbtn : renderShowsDownloadButton dl book = true) :
    book.audible_product_id ∉ dl := by
  simp only [renderShowsDownloadButton, Bool.and_eq_true, Bool.not_eq_true',
    decide_eq_false_iff_not] at hbtn
  exact hbtn.2

/-- Claim C3, counterexample: two presses of the still-rendered download
button for the same book, both made while neither invocation has yet
reached its downloadingAsins insert, both pass every check and both
invoke downloadAndDecryptBook, reaching a screen state with two
simultaneous active transfers for one audible_product_id. -/
theorem library_duplicate_transfer_counterexample :
    LibraryReachable ⟨[⟨"B07T2F8VJM", "A Grown-Up Guide to Dinosaurs", none⟩],
      insert "B07T2F8VJM" (insert "B07T2F8VJM" ∅),
      ["B07T2F8VJM", "B07T2F8VJM"], []⟩ ∧
    ["B07T2F8VJM", "B07T2F8VJM"].count "B07T2F8VJM" = 2 := by
  refine ⟨?_, rfl⟩
  exact
    LibraryReachable.step
      (LibraryReachable.step
        (LibraryReachable.step
          (LibraryReachable.step
            (LibraryReachable.init
              [⟨"B07T2F8VJM", "A Grown-Up Guide to Dinosaurs", none⟩])
            (LibraryStep.press _
              ⟨some ⟨none⟩, 0, none, some "/downloads",
                Except.ok ⟨"/downloads/book.m4b", 9783⟩⟩
              ⟨"B07T2F8VJM", "A Grown-Up Guide to Dinosaurs", none⟩
              (List.mem_singleton.mpr rfl) rfl))
          (LibraryStep.press _
            ⟨some ⟨none⟩, 0, none, some "/downloads",
              Except.ok ⟨"/downloads/book.m4b", 9783⟩⟩
            ⟨"B07T2F8VJM", "A Grown-Up Guide to Dinosaurs", none⟩
            (List.mem_singleton.mpr rfl) rfl))
        (LibraryStep.resumeStart _
          ⟨some ⟨none⟩, 0, none, some "/downloads",
            Except.ok ⟨"/downloads/book.m4b", 9783⟩⟩
          ⟨"B07T2F8VJM", "A Grown-Up Guide to Dinosaurs", none⟩
          []
          [(⟨some ⟨none⟩, 0, none, some "/downloads",
              Except.ok ⟨"/downloads/book.m4b", 9783⟩⟩,
            ⟨"B07T2F8VJM", "A Grown-Up Guide to Dinosaurs", none⟩)]
          rfl rfl))
      (LibraryStep.resumeStart _
        ⟨some ⟨none⟩, 0, none, some "/downloads",
          Except.ok ⟨"/downloads/book.m4b", 9783⟩⟩
        ⟨"B07T2F8VJM", "A Grown-Up Guide to Dinosaurs", none⟩
        [] [] rfl rfl)

/-- Serialized executions: each pressed invocation runs through its
downloadingAsins insert (or its early return) before the next press
happens. Each constructor below is the press immediately followed by its
resume; the theorem serialized_sub_interleaved shows every serialized
state is reachable in the interleaved system. -/
inductive SerializedReachable : LibraryState → Prop where
  | init (books : List Book) : SerializedReachable ⟨books, ∅, [], []⟩
  | pressStart (s : LibraryState) (env : DownloadEnv) (book : Book)
      (hr : SerializedReachable s)
      (hbook : book ∈ s.books)
      (hbtn : renderShowsDownloadButton s.downloading book = true)
      (hstart : (handleDownload env s.downloading book).invokedDownload = true) :
      SerializedReachable ⟨s.books, insert book.audible_product_id s.downloading,
        book.audible_product_id :: s.active, s.pending⟩
  | pressNoStart (s : LibraryState) (env : DownloadEnv) (book : Book)
      (hr : SerializedReachable s)
      (hbook : book ∈ s.books)
      (hbtn : renderShowsDownloadButton s.downloading book = true)
      (hstart : (handleDownload env s.downloading book).invokedDownload = false) :
      SerializedReachable ⟨s.books,
        (handleDownload env s.downloading book).downloadingAfter, s.active,
        s.pending⟩
  | settle (s : LibraryState) (asin : String)
      (hr : SerializedReachable s) (hactive : asin ∈ s.active) :
      SerializedReachable ⟨s.books, s.downloading.erase asin,
        s.active.erase asin, s.pending⟩

/-- Every serialized state is reachable in the interleaved system: each
serialized press is a press step immediately followed by its resume
step. -/
theorem serialized_sub_interleaved {s : LibraryState}
    (h : SerializedReachable s) : LibraryReachable s := by
  induction h with
  | init books => exact LibraryReachable.init books
  | pressStart s env book hr hbook hbtn hstart ih =>
    exact LibraryReachable.step
      (LibraryReachable.step ih (LibraryStep.press s env book hbook hbtn))
      (LibraryStep.resumeStart
        ⟨s.books, s.downloading, s.active, (env, book) :: s.pending⟩
        env book [] s.pending rfl hstart)
  | pressNoStart s env book hr hbook hbtn hstart ih =>
    exact LibraryReachable.step
      (LibraryReachable.step ih (LibraryStep.press s env book hbook hbtn))
      (LibraryStep.resumeNoStart
        ⟨s.books, s.downloading, s.active, (env, book) :: s.pending⟩
        env book [] s.pending rfl hstart)
  | settle s asin hr hactive ih =>
    exact LibraryReachable.step ih (LibraryStep.settle s asin hactive)

/-- Screen invariant of serialized executions: in-flight transfers are
pairwise distinct and each is marked in downloadingAsins. -/
def LibraryInv (s : LibraryState) : Prop :=
  s.active.Nodup ∧ ∀ a ∈ s.active, a ∈ s.downloading

/-- The invariant holds in every serialized screen state. -/
theorem serializedReachable_inv {s : LibraryState}
    (h : SerializedReachable s) : LibraryInv s := by
  induction h with
  | init books => exact ⟨List.nodup_nil, by simp⟩
  | pressStart s env book hr hbook hbtn hstart ih =>
    obtain ⟨hnd, hsub⟩ := ih
    have hnotdl := press_guard_not_downloading hbtn
    have hnotact : book.audible_product_id ∉ s.active :=
      fun hmem => hnotdl (hsub _ hmem)
    refine ⟨List.nodup_cons.mpr ⟨hnotact, hnd⟩, ?_⟩
    intro a ha
    rcases List.mem_cons.mp ha with rfl | ha
    · exact Finset.mem_insert_self _ _
    · exact Finset.mem_insert_of_mem (hsub _ ha)
  | pressNoStart s env book hr hbook hbtn hstart ih =>
    obtain ⟨hnd, hsub⟩ := ih
    have hnotdl := press_guard_not_downloading hbtn
    refine ⟨hnd, ?_⟩
    intro a ha
    show a ∈ (handleDownload env s.downloading book).downloadingAfter
    rw [handleDownload_after]
    have hne : a ≠ book.audible_product_id :=
      fun he => hnotdl (he ▸ hsub a ha)
    exact Finset.mem_erase.mpr ⟨hne, hsub a ha⟩
  | settle s asin hr hactive ih =>
    obtain ⟨hnd, hsub⟩ := ih
    refine ⟨hnd.erase asin, ?_⟩
    intro a ha
    have hmem := (hnd.mem_erase_iff.mp ha)
    exact Finset.mem_erase.mpr ⟨hmem.1, hsub a hmem.2⟩

/-- Claim C3 (amended): a press is only possible through the rendered
download button, which renderItem withholds while the title is already
downloading or downloaded; when handleDownload invocations are serialized,
each reaching its downloadingAsins insert or early return before the next
press, at most one active transfer exists per audible_product_id.
Overlapping presses of the still-rendered button, whose inserts happen
only after awaited reads and without any in-function duplicate check, can
start duplicate transfers. -/
theorem library_serialized_at_most_one_active (s : LibraryState)
    (h : SerializedReachable s) (asin : String) : s.active.count asin ≤ 1 :=
  List.nodup_iff_count_le_one.mp (serializedReachable_inv h).1 asin

/-- Claim C3, witness for the amended theorem: the serialized state
reached by pressing download on one available book has a single active
transfer for it. -/
theorem library_serialized_at_most_one_active_witness :
    ((⟨[⟨"B07T2F8VJM", "A Grown-Up Guide to Dinosaurs", none⟩],
      insert "B07T2F8VJM" ∅, ["B07T2F8VJM"], []⟩ : LibraryState)).active.count
      "B07T2F8VJM" ≤ 1 :=
  library_serialized_at_most_one_active _
    (SerializedReachable.pressStart _
      ⟨some ⟨none⟩, 0, none, some "/downloads",
        Except.ok ⟨"/downloads/book.m4b", 9783⟩⟩
      ⟨"B07T2F8VJM", "A Grown-Up Guide to Dinosaurs", none⟩
      (SerializedReachable.init
        [⟨"B07T2F8VJM", "A Grown-Up Guide to Dinosaurs", none⟩])
      (List.mem_singleton.mpr rfl) rfl rfl)
    "B07T2F8VJM"

/-!
Part 4: the authentication hook (src/hooks/useAuthentication.ts).

checkAuthentication is modelled as a pure function of the four stored
items, the clock and the outcome refreshAccessToken would have. All times
are epoch milliseconds; the expires_in arithmetic uses flooring division,
matching Math.floor.
-/

/-- The four SecureStore items checkAuthentication reads. -/
structure AuthStore where
  accessToken : Option String
  refreshToken : Option String
  expiresAt : Option Int
  localeCode : Option String
deriving Repr, DecidableEq

/-- Tokens placed into the hook state on the valid-token path. -/
structure TokenResponseSt where
  access_token : String
  refresh_token : String
  expires_in : Int
  token_type : String
deriving Repr, DecidableEq

/-- Observable outcome of one checkAuthentication call: the
isAuthenticated flag written to state, the tokens written alongside it,
whether refreshAccessToken was attempted, and the returned boolean. -/
structure CheckAuthResult where
  isAuthenticated : Bool
  tokens : Option TokenResponseSt
  attemptedRefresh : Bool
  returned : Bool
deriving Repr, DecidableEq

/-- Embedding of checkAuthentication (useAuthentication.ts lines 130 to
198). With a token missing, the state is cleared and false returned; an
expiry before now, or within five minutes of now, triggers the refresh
path (logging out when it fails); otherwise the state is marked
authenticated with expires_in recomputed from the stored expiry, 3600
when none is stored. -/
def checkAuthentication (store : AuthStore) (now : Int)
    (refreshSucceeds : Bool) : CheckAuthResult :=
  match store.accessToken, store.refreshToken with
  | some atk, some rtk =>
    let isExpired : Bool :=
      match store.expiresAt with
      | some t => t < now
      | none => false
    let isExpiringSoon : Bool :=
      match store.expiresAt with
      | some t => t < now + 5 * 60 * 1000
      | none => false
    if isExpired || isExpiringSoon then
      if refreshSucceeds then ⟨true, none, true, true⟩
      else ⟨false, none, true, false⟩
    else
      ⟨true, some ⟨atk, rtk,
        (match store.expiresAt with
         | some t => Int.fdiv (t - now) 1000
         | none => 3600), "Bearer"⟩, false, true⟩
  | _, _ => ⟨false, none, false, false⟩

/-- Claim C9: with both tokens present and no stored expiry timestamp,
checkAuthentication treats the token as neither expired nor expiring
soon, reports the user authenticated with expires_in defaulted to 3600,
and never attempts a token refresh. -/
theorem checkAuthentication_no_expiry (store : AuthStore) (now : Int)
    (refreshSucceeds : Bool) (atk rtk : String)
    (hacc : store.accessToken = some atk)
    (href : store.refreshToken = some rtk)
    (hexp : store.expiresAt = none) :
    checkAuthentication store now refreshSucceeds =
      ⟨true, some ⟨atk, rtk, 3600, "Bearer"⟩, false, true⟩ := by
  simp [checkAuthentication, hacc, href, hexp]

/-- Claim C9, witness: concrete store with tokens but no expiry. -/
theorem checkAuthentication_no_expiry_witness :
    checkAuthentication ⟨some "Atna-access", some "Atnr-refresh", none, some "us"⟩
      1760000000000 false =
      ⟨true, some ⟨"Atna-access", "Atnr-refresh", 3600, "Bearer"⟩, false, true⟩ :=
  checkAuthentication_no_expiry _ 1760000000000 false "Atna-access" "Atnr-refresh"
    rfl rfl rfl

/-!
Part 5: the Rust download core. The crate sources (stream.rs,
progress.rs, manager.rs, license.rs) are not part of this tree; only
their FFI declarations, callers and status documents are. The components
the remaining claims depend on are therefore modelled from the
specification and settled against those models.
-/

/-- Modelled from the spec: the ResumableStream flush discipline of
stream.rs, which is missing from the tree. The volatile file length
counts bytes appended through the file handle, durableLen the bytes
guaranteed on disk by the last flush, and bytesWritten the persisted
DownloadState offset, advanced only after a successful flush. -/
structure StreamSt where
  fileLen : Nat
  durableLen : Nat
  bytesWritten : Nat
deriving Repr, DecidableEq

/-- Modelled from the spec: events of the streaming loop. An append
writes one chunk through the handle; a flush makes the appended bytes
durable and then persists the new offset; a crash at any point loses an
arbitrary suffix of the unflushed appends while the persisted offset
stays at its last flushed value. -/
inductive StreamStep : StreamSt → StreamSt → Prop where
  | append (st : StreamSt) (n : Nat) :
      StreamStep st ⟨st.fileLen + n, st.durableLen, st.bytesWritten⟩
  | flush (st : StreamSt) :
      StreamStep st ⟨st.fileLen, st.fileLen, st.fileLen⟩
  | crash (st : StreamSt) (v : Nat) (hlo : st.durableLen ≤ v)
      (hhi : v ≤ st.fileLen) :
      StreamStep st ⟨v, v, st.bytesWritten⟩

/-- Stream states reachable from a fresh transfer at byte zero. -/
inductive StreamReachable : StreamSt → Prop where
  | init : StreamReachable ⟨0, 0, 0⟩
  | step {s t : StreamSt} (hr : StreamReachable s) (hs : StreamStep s t) :
      StreamReachable t

/-- Plan chosen when loading persisted transfer state. -/
inductive ResumePlan where
  | resumeFrom (offset : Nat) : ResumePlan
  | restartFromZero : ResumePlan
deriving Repr, DecidableEq

/-- Modelled from the spec: on load the destination file length must be
at least the persisted bytes_written; a shorter file marks the state
corrupt and the transfer restarts from byte zero. -/
def loadPersistedState (bytesWritten fileLen : Nat) : ResumePlan :=
  if fileLen < bytesWritten then .restartFromZero
  else .resumeFrom bytesWritten

/-- Durability invariant of the stream states: the persisted offset never
exceeds the durable length, which never exceeds the file length. -/
def StreamInv (st : StreamSt) : Prop :=
  st.bytesWritten ≤ st.durableLen ∧ st.durableLen ≤ st.fileLen

/-- Every streaming event preserves the durability invariant. -/
theorem streamStep_preserves_inv {s t : StreamSt} (hs : StreamStep s t)
    (hinv : StreamInv s) : StreamInv t := by
  rcases hinv with ⟨h1, h2⟩
  cases hs with
  | append n =>
    refine ⟨h1, ?_⟩
    show s.durableLen ≤ s.fileLen + n
    omega
  | flush => exact ⟨le_refl _, le_refl _⟩
  | crash v hlo hhi =>
    refine ⟨?_, le_refl _⟩
    show s.bytesWritten ≤ v
    omega

/-- The durability invariant holds in every reachable stream state. -/
theorem streamReachable_inv {s : StreamSt} (h : StreamReachable s) :
    StreamInv s := by
  induction h with
  | init => exact ⟨le_refl _, le_refl _⟩
  | step hr hs ih => exact streamStep_preserves_inv hs ih

/-- Claim C5: in every reachable stream state, including after any crash
and restart, the persisted bytes_written never exceeds the actual byte
length of the destination file; and loading a persisted state whose file
is shorter than bytes_written restarts the transfer from byte zero. -/
theorem stream_durability (s : StreamSt) (h : StreamReachable s) :
    s.bytesWritten ≤ s.fileLen ∧
    ∀ w f : Nat, f < w → loadPersistedState w f = ResumePlan.restartFromZero := by
  refine ⟨?_, ?_⟩
  · rcases streamReachable_inv h with ⟨h1, h2⟩
    omega
  · intro w f hlt
    simp [loadPersistedState, hlt]

/-- Claim C5, witness: the state after appending a 1 MiB chunk, flushing,
appending more, and crashing with a partial suffix surviving. -/
theorem stream_durability_witness :
    (⟨1200000, 1200000, 1048576⟩ : StreamSt).bytesWritten ≤
      (⟨1200000, 1200000, 1048576⟩ : StreamSt).fileLen ∧
    loadPersistedState 1048576 1000000 = ResumePlan.restartFromZero :=
  have hreach : StreamReachable ⟨1200000, 1200000, 1048576⟩ :=
    StreamReachable.step
      (StreamReachable.step
        (StreamReachable.step
          (StreamReachable.step StreamReachable.init
            (StreamStep.append ⟨0, 0, 0⟩ 1048576))
          (StreamStep.flush ⟨1048576, 0, 0⟩))
        (StreamStep.append ⟨1048576, 1048576, 1048576⟩ 500000))
      (StreamStep.crash ⟨1548576, 1048576, 1048576⟩ 1200000
        (by decide) (by decide))
  ⟨(stream_durability ⟨1200000, 1200000, 1048576⟩ hreach).1,
   (stream_durability ⟨1200000, 1200000, 1048576⟩ hreach).2
     1048576 1000000 (by decide)⟩

/-- HTTP response head as seen when a resume range request comes back:
the status code and the optional Content-Range header value, given as
start, end and total. -/
structure RangeResponse where
  status : Nat
  contentRange : Option (Nat × Nat × Nat)
deriving Repr, DecidableEq

/-- Action the stream takes on the response to a resume request. -/
inductive ResumeAction where
  | continueFrom (offset : Nat) : ResumeAction
  | fullRestart : ResumeAction
  | failed (status : Nat) : ResumeAction
deriving Repr, DecidableEq

/-- Offset the stream continues writing from under an action; a full
restart discards the prior bytes_written and starts at byte zero. -/
def ResumeAction.offset : ResumeAction → Nat
  | .continueFrom o => o
  | .fullRestart => 0
  | .failed _ => 0

/-- Modelled from the spec: the range-mismatch handling of stream.rs,
which is missing from the tree. A 206 confirms the resume and the
transfer continues from the saved offset; a 200, or any response lacking
a Content-Range header, means the server ignored the range and is treated
as a full restart, logged but not surfaced as an error; other statuses
are failures surfaced to the caller. The boolean reports whether the
outcome is surfaced as an error. -/
def handleResumeResponse (saved : Nat) (resp : RangeResponse) :
    ResumeAction × Bool :=
  if resp.status == 206 then (.continueFrom saved, false)
  else if resp.status == 200 || resp.contentRange == none then
    (.fullRestart, false)
  else (.failed resp.status, true)

/-- Claim C6: a 206 Partial Content response continues the transfer from
the saved bytes_written offset, while a 200 OK response lacking a
Content-Range header is treated as a full restart from byte zero that
discards the prior offset and is not surfaced as an error. -/
theorem resume_response_handling (saved : Nat)
    (cr : Option (Nat × Nat × Nat)) :
    handleResumeResponse saved ⟨206, cr⟩ =
      (ResumeAction.continueFrom saved, false) ∧
    handleResumeResponse saved ⟨200, none⟩ =
      (ResumeAction.fullRestart, false) ∧
    (handleResumeResponse saved ⟨200, none⟩).1.offset = 0 := by
  refine ⟨?_, rfl, rfl⟩
  simp [handleResumeResponse]

/-- Modelled from the spec: the DRM scheme error of the license layer. -/
inductive VoucherError where
  | malformedVoucherError : VoucherError
deriving Repr, DecidableEq

/-- Modelled from the spec: parse_key_material of license.rs, which is
missing from the tree. The key material extracted from the decrypted
voucher is classified by byte length: exactly 4 bytes is a TypeA
activation key, exactly 32 bytes is a TypeB 16-byte key followed by a
16-byte IV, and every other length fails with MalformedVoucherError. -/
def parse_key_material (bytes : List Nat) :
    Except VoucherError KeyMaterial :=
  if bytes.length == 4 then .ok (.typeA bytes)
  else if bytes.length == 32 then
    .ok (.typeB (bytes.take 16) (bytes.drop 16))
  else .error .malformedVoucherError

/-- Claim C7: parse_key_material classifies a 4-byte input as TypeA and a
16-byte key plus 16-byte IV (32 bytes) as TypeB, and fails with
MalformedVoucherError on every other length. -/
theorem parse_key_material_classification (bytes : List Nat) :
    (bytes.length = 4 →
      parse_key_material bytes = .ok (.typeA bytes)) ∧
    (bytes.length = 32 →
      parse_key_material bytes =
        .ok (.typeB (bytes.take 16) (bytes.drop 16))) ∧
    (bytes.length ≠ 4 → bytes.length ≠ 32 →
      parse_key_material bytes = .error .malformedVoucherError) := by
  refine ⟨fun h4 => ?_, fun h32 => ?_, fun h4 h32 => ?_⟩
  · simp [parse_key_material, h4]
  · simp [parse_key_material, h32]
  · simp [parse_key_material, h4, h32]

/-- Claim C7, witness: the activation key 1CEB00DA, the recorded TypeB
key and IV of book B07T2F8VJM, and an 8-byte input. -/
theorem parse_key_material_classification_witness :
    parse_key_material [28, 235, 0, 218] = .ok (.typeA [28, 235, 0, 218]) ∧
    parse_key_material
      [126, 208, 91, 213, 242, 231, 186, 189, 32, 217, 132, 222, 21, 134, 33, 129,
       217, 87, 192, 242, 117, 137, 87, 89, 224, 218, 90, 234, 122, 236, 170, 4] =
      .ok (.typeB
        [126, 208, 91, 213, 242, 231, 186, 189, 32, 217, 132, 222, 21, 134, 33, 129]
        [217, 87, 192, 242, 117, 137, 87, 89, 224, 218, 90, 234, 122, 236, 170, 4]) ∧
    parse_key_material [1, 2, 3, 4, 5, 6, 7, 8] = .error .malformedVoucherError :=
  ⟨(parse_key_material_classification _).1 rfl,
   by
    rw [(parse_key_material_classification
      [126, 208, 91, 213, 242, 231, 186, 189, 32, 217, 132, 222, 21, 134, 33, 129,
       217, 87, 192, 242, 117, 137, 87, 89, 224, 218, 90, 234, 122, 236, 170, 4]).2.1 rfl]
    rfl,
   (parse_key_material_classification _).2.2 (by decide) (by decide)⟩

/-- Modelled from the spec: the per-task ProgressTracker of progress.rs,
which is missing from the tree. It accumulates a monotonically increasing
byte counter; each emission reports the counter value current at that
point, and emissions of one task are strictly ordered. -/
structure TrackerSt where
  bytesDone : Nat
  emitted : List Nat
deriving Repr, DecidableEq

/-- Modelled from the spec: tracker events of one task. A record
accumulates a byte delta; an emit publishes a progress snapshot carrying
the current bytes_done (the throttling of should_emit only decides when
an emit happens, not what it carries). -/
inductive TrackerEvent where
  | record (delta : Nat) : TrackerEvent
  | emit : TrackerEvent
deriving Repr, DecidableEq

/-- One tracker transition. -/
def trackerStep (st : TrackerSt) : TrackerEvent → TrackerSt
  | .record d => ⟨st.bytesDone + d, st.emitted⟩
  | .emit => ⟨st.bytesDone, st.emitted ++ [st.bytesDone]⟩

/-- Run a tracker event trace from a fresh task at zero bytes. -/
def trackerRun (events : List TrackerEvent) : TrackerSt :=
  events.foldl trackerStep ⟨0, []⟩

/-- Folding any event trace from a state whose emissions are
non-decreasing and bounded by the counter keeps both properties. -/
theorem trackerFold_sorted (events : List TrackerEvent) (st : TrackerSt)
    (h1 : List.Sorted (· ≤ ·) st.emitted)
    (h2 : ∀ x ∈ st.emitted, x ≤ st.bytesDone) :
    List.Sorted (· ≤ ·) (events.foldl trackerStep st).emitted ∧
    ∀ x ∈ (events.foldl trackerStep st).emitted,
      x ≤ (events.foldl trackerStep st).bytesDone := by
  induction events generalizing st with
  | nil => exact ⟨h1, h2⟩
  | cons e tl ih =>
    cases e with
    | record d =>
      apply ih
      · exact h1
      · intro x hx
        exact le_trans (h2 x hx) (Nat.le_add_right _ _)
    | emit =>
      apply ih
      · show List.Sorted (· ≤ ·) (st.emitted ++ [st.bytesDone])
        rw [List.Sorted, List.pairwise_append]
        refine ⟨h1, List.pairwise_singleton _ _, ?_⟩
        intro a ha b hb
        rw [List.mem_singleton] at hb
        exact hb ▸ h2 a ha
      · intro x hx
        rcases List.mem_append.mp hx with hmem | hmem
        · exact h2 x hmem
        · exact le_of_eq (List.mem_singleton.mp hmem)

/-- Claim C8: for any single task, the sequence of bytes_done values
carried by its successive progress emissions is monotonically
non-decreasing, for every trace of record and emit events. -/
theorem progress_bytes_done_monotone (events : List TrackerEvent) :
    List.Sorted (· ≤ ·) (trackerRun events).emitted :=
  (trackerFold_sorted events ⟨0, []⟩ (by simp) (by simp)).1
